import Mathlib

/-!
# Shadow tracing (`pkg/util/tracing/shadow.go`)

A shallow embedding of the shadow-tracer glue of the tracing package:

* `lightStepManager`, `shadowTracer.Typ`, `shadowTracer.Close`;
* `linkShadowSpan`, which builds the start options of a shadow span and
  stores the shadow tracer and the shadow span on the primary span;
* `createLightStepTracer`, `updateShadowTracer`, `updateShadowTracers`.

Go pointers to immutable structs are values here.  Go maps are references:
the tag map of a span lives in a `Heap` and the span holds its address.
Calls into the lightstep library are recorded in `World.calls`; what the
library answers is given by a `Lightstep` value, over which the theorems
quantify.  A nil-pointer panic is the result `none`.
-/

namespace Tracing

/-! ## opentracing values -/

/-- An instant (`time.Time`), as a count of nanoseconds. -/
abbrev Time := Int

/-- The contents of a Go `map[string]interface{}`: a finite map read by key. -/
abbrev TagMap := String → Option String

/-- The empty map. -/
def TagMap.empty : TagMap := fun _ => none

/-- Go `m[k] = v`. -/
def TagMap.set (m : TagMap) (k v : String) : TagMap :=
  fun x => if x = k then some v else m x

/-- Go `delete(m, k)`. -/
def TagMap.delete (m : TagMap) (k : String) : TagMap :=
  fun x => if x = k then none else m x

/-- Go `for k, v := range t { o[k] = v }`: every key of `t` is written into `o`. -/
def TagMap.copyInto (o t : TagMap) : TagMap :=
  fun x => match t x with
    | some v => some v
    | none => o x

/-- Address of a map allocated on the Go heap. -/
abbrev Addr := Nat

/-- The maps allocated so far; the address of a map is its index. -/
abbrev Heap := List TagMap

/-- Contents of the map at an address. -/
def Heap.read (h : Heap) (a : Addr) : TagMap := h.getD a TagMap.empty

/-- The constants `opentracing.ChildOfRef` and `opentracing.FollowsFromRef`. -/
inductive SpanReferenceType where
  | ChildOfRef
  | FollowsFromRef
  deriving DecidableEq, Repr

/-- A non-nil `opentracing.SpanContext` of the shadow tracer: a handle. -/
structure SpanContext where
  id : Nat
  deriving DecidableEq, Repr

/-- The struct `opentracing.SpanReference`. -/
structure SpanReference where
  Typ : SpanReferenceType
  ReferencedContext : SpanContext
  deriving DecidableEq, Repr

/-- The values of the interface `opentracing.StartSpanOption` that
`linkShadowSpan` builds.  A `Tags` option is the map itself, that is a
reference to it. -/
inductive StartSpanOption where
  | StartTime (t : Time)
  | Tags (m : Addr)
  | SpanReference (r : SpanReference)
  deriving DecidableEq, Repr

/-- The struct `opentracing.StartSpanOptions` a backend fills from the
options it is given. `Tags` is nil until a `Tags` option is applied. -/
structure StartSpanOptions where
  References : List SpanReference
  StartTime : Time
  Tags : Option TagMap

/-- The zero value of `StartSpanOptions`. -/
def StartSpanOptions.zero : StartSpanOptions :=
  { References := [], StartTime := 0, Tags := none }

/-- Modelled from the spec: the `Apply` methods of the three option kinds
belong to the opentracing library, not to this package.  The backend
"options support: explicit start time override, bulk tag attachment, and
zero-or-one causal parent reference": a start time overrides, a tag map is
copied key by key out of the heap into the map of the options, a reference
is appended. -/
def StartSpanOption.Apply (h : Heap) (opt : StartSpanOption) (o : StartSpanOptions) :
    StartSpanOptions :=
  match opt with
  | .StartTime t => { o with StartTime := t }
  | .Tags a => { o with Tags := some (TagMap.copyInto (o.Tags.getD TagMap.empty) (h.read a)) }
  | .SpanReference r => { o with References := o.References ++ [r] }

/-- Apply the options in the order they were passed. -/
def applyOptions (h : Heap) (opts : List StartSpanOption) : StartSpanOptions :=
  opts.foldl (fun o opt => opt.Apply h o) StartSpanOptions.zero

/-- A non-nil backend `opentracing.Tracer`: a handle. -/
structure BackendTracer where
  id : Nat
  deriving DecidableEq, Repr

/-- The span a backend returns from `StartSpan`: the tracer it was started
on, the operation name, the options exactly as passed, and what the backend
recorded from them at that moment. -/
structure BackendSpan where
  tracer : BackendTracer
  operationName : String
  opts : List StartSpanOption
  recorded : StartSpanOptions

/-- Modelled from the spec: the trace backend is outside the package;
"`StartSpan(operationName, options) -> backendSpan`".  The options are
applied while `StartSpan` runs, against the heap of that moment. -/
def BackendTracer.StartSpan (b : BackendTracer) (h : Heap) (operationName : String)
    (opts : List StartSpanOption) : BackendSpan :=
  { tracer := b, operationName := operationName, opts := opts, recorded := applyOptions h opts }

/-- The tag set a backend span has recorded (a nil map has no tags). -/
def BackendSpan.tags (sp : BackendSpan) : TagMap := sp.recorded.Tags.getD TagMap.empty

/-! ## Managers and shadow tracers -/

/-- The implementations of the interface `shadowTracerManager`; the package
has one, the struct `lightStepManager`. -/
inductive shadowTracerManager where
  | lightStepManager
  deriving DecidableEq, Repr

/-- The struct `shadowTracer`: an embedded `opentracing.Tracer`, which as an
interface value may be nil, and its manager. -/
structure shadowTracer where
  Tracer : Option BackendTracer
  manager : shadowTracerManager
  deriving DecidableEq, Repr

/-- An `opentracing.Tracer` interface value handed to the lightstep library:
a backend tracer, or a `*shadowTracer`, which is a tracer by embedding. -/
inductive OTTracer where
  | backend (b : BackendTracer)
  | shadow (st : shadowTracer)
  deriving DecidableEq, Repr

/-! ## Spans -/

/-- The fields of `span.mu` that `linkShadowSpan` reads. -/
structure span.Mu where
  tags : Option Addr
  deriving DecidableEq

/-- Modelled from the spec: the struct `span` is declared outside
`shadow.go`; these are the fields `linkShadowSpan` reads and writes
("{ startTime, operationName, tags, optional shadowTracer, optional
shadowSpan }").  `mu.tags` is nil or a map. -/
structure span where
  operation : String
  startTime : Time
  mu : span.Mu
  shadowTr : Option shadowTracer
  shadowSpan : Option BackendSpan

/-- The function `linkShadowSpan`.  `shadowTr.StartSpan` goes through the
pointer `shadowTr` and the embedded interface: if either is nil the call
panics, which is `none`. -/
def linkShadowSpan (h : Heap) (s : span) (shadowTr : Option shadowTracer)
    (parentShadowCtx : Option SpanContext) (parentType : SpanReferenceType) : Option span :=
  let opts : List StartSpanOption := []
  let opts := opts ++ [StartSpanOption.StartTime s.startTime]
  let opts :=
    match s.mu.tags with
    | some m => opts ++ [StartSpanOption.Tags m]
    | none => opts
  let opts :=
    match parentShadowCtx with
    | some ctx =>
        opts ++ [StartSpanOption.SpanReference { Typ := parentType, ReferencedContext := ctx }]
    | none => opts
  let s := { s with shadowTr := shadowTr }
  match shadowTr with
  | none => none
  | some st =>
    match st.Tracer with
    | none => none
    | some b => some { s with shadowSpan := some (b.StartSpan h s.operation opts) }

/-- The tag set of the primary span: the contents of `s.mu.tags`. -/
def span.tagSet (h : Heap) (s : span) : TagMap :=
  match s.mu.tags with
  | some m => h.read m
  | none => TagMap.empty

/-- The causal references among a list of options. -/
def references : List StartSpanOption → List SpanReference
  | [] => []
  | StartSpanOption.SpanReference r :: rest => r :: references rest
  | _ :: rest => references rest

/-- The start times among a list of options. -/
def startTimes : List StartSpanOption → List Time
  | [] => []
  | StartSpanOption.StartTime t :: rest => t :: startTimes rest
  | _ :: rest => startTimes rest

/-- The tag maps among a list of options, each by its address. -/
def tagOptions : List StartSpanOption → List Addr
  | [] => []
  | StartSpanOption.Tags m :: rest => m :: tagOptions rest
  | _ :: rest => tagOptions rest

/-- The tag set a list of start options carries when read in the heap `h`:
what applying the options yields at that moment. -/
def optionTags (h : Heap) (opts : List StartSpanOption) : TagMap :=
  (applyOptions h opts).Tags.getD TagMap.empty

/-- A write to a Go map: `m[k] = v`, which adds or overwrites a key, or
`delete(m, k)`. -/
inductive TagMutation where
  | set (k v : String)
  | delete (k : String)

/-- The map after a write. -/
def TagMutation.apply (op : TagMutation) (m : TagMap) : TagMap :=
  match op with
  | .set k v => m.set k v
  | .delete k => m.delete k

/-- A write to the map at address `a`.  It is made in place: every holder
of the reference reads the new contents. -/
def Heap.mutate (h : Heap) (a : Addr) (op : TagMutation) : Heap :=
  h.set a (op.apply (h.read a))

/-! ## The lightstep library and the token setting -/

/-- The struct `lightstep.Options`, with the fields `createLightStepTracer` sets. -/
structure Options where
  AccessToken : String
  MaxLogsPerSpan : Nat
  MaxBufferedSpans : Nat
  UseGRPC : Bool
  deriving DecidableEq, Repr

/-- A call that leaves `shadow.go`: into the lightstep library, or the call
of `setShadowTracer` on the tracer with the given identity. -/
inductive Call where
  | NewTracer (opts : Options)
  | FlushLightStepTracer (tr : OTTracer)
  | CloseTracer (tr : OTTracer)
  | setShadowTracer (t : Nat) (manager : Option shadowTracerManager) (tr : Option BackendTracer)
  deriving DecidableEq, Repr

/-- What lies outside the package and is not fixed by it.  The lightstep
library answers each call from the calls made so far and the argument:
`NewTracer` returns a tracer or nil, `FlushLightStepTracer` and
`CloseTracer` return an error or nil.  `maxLogsPerSpan` is a constant of
the package declared outside `shadow.go`. -/
structure Lightstep where
  maxLogsPerSpan : Nat
  newTracer : List Call → Options → Option BackendTracer
  flush : List Call → OTTracer → Option String
  close : List Call → OTTracer → Option String

/-- The state `shadow.go` shares with the rest of the process: the current
value of the setting `trace.lightstep.token`, the spans alive in the
process, and the calls made so far. -/
structure World where
  lightStepToken : String
  spans : List span
  calls : List Call

/-- The call `lightStepToken.Get()`. -/
def lightStepToken.Get (w : World) : String := w.lightStepToken

/-- The call `lightstep.NewTracer(opts)`. -/
def lightstep.NewTracer (env : Lightstep) (opts : Options) (w : World) :
    Option BackendTracer × World :=
  (env.newTracer w.calls opts, { w with calls := w.calls ++ [Call.NewTracer opts] })

/-- The call `lightstep.FlushLightStepTracer(tr)`. -/
def lightstep.FlushLightStepTracer (env : Lightstep) (tr : OTTracer) (w : World) :
    Option String × World :=
  (env.flush w.calls tr, { w with calls := w.calls ++ [Call.FlushLightStepTracer tr] })

/-- The call `lightstep.CloseTracer(tr)`. -/
def lightstep.CloseTracer (env : Lightstep) (tr : OTTracer) (w : World) :
    Option String × World :=
  (env.close w.calls tr, { w with calls := w.calls ++ [Call.CloseTracer tr] })

/-- The method `lightStepManager.Name`. -/
def lightStepManager.Name : String := "lightstep"

/-- The method `lightStepManager.Close`: both results are discarded. -/
def lightStepManager.Close (env : Lightstep) (tr : OTTracer) (w : World) : World :=
  let (_, w) := lightstep.FlushLightStepTracer env tr w
  let (_, w) := lightstep.CloseTracer env tr w
  w

/-- Dispatch of `Name()` on the interface `shadowTracerManager`. -/
def shadowTracerManager.Name : shadowTracerManager → String
  | .lightStepManager => lightStepManager.Name

/-- Dispatch of `Close(tr)` on the interface `shadowTracerManager`. -/
def shadowTracerManager.Close (env : Lightstep) :
    shadowTracerManager → OTTracer → World → World
  | .lightStepManager => lightStepManager.Close env

/-- The method `shadowTracer.Typ`. -/
def shadowTracer.Typ (st : shadowTracer) : String := st.manager.Name

/-- The method `shadowTracer.Close`: the manager is given `st` itself. -/
def shadowTracer.Close (env : Lightstep) (st : shadowTracer) (w : World) : World :=
  st.manager.Close env (OTTracer.shadow st) w

/-- The function `createLightStepTracer`. -/
def createLightStepTracer (env : Lightstep) (token : String) (w : World) :
    Option BackendTracer × World :=
  lightstep.NewTracer env
    { AccessToken := token
      MaxLogsPerSpan := env.maxLogsPerSpan
      MaxBufferedSpans := 10000
      UseGRPC := true } w

/-! ## Tracers -/

/-- Modelled from the spec: the struct `Tracer` is declared outside
`shadow.go`; "{ current active ShadowTracer or none }".  `id` stands for
the identity of the pointer `*Tracer`. -/
structure Tracer where
  id : Nat
  shadowTracer : Option shadowTracer
  deriving DecidableEq, Repr

/-- Modelled from the spec: the method `Tracer.setShadowTracer` is defined
outside `shadow.go`.  With a manager, the backend tracer is wrapped "with
the appropriate Manager" and installed "as the Tracer's active
ShadowTracer"; without one the slot is cleared (install "none").  In both
cases "any previously active ShadowTracer is replaced and its `Close()` is
invoked", after the swap.  Nothing validates the backend tracer. -/
def Tracer.setShadowTracer (env : Lightstep) (t : Tracer)
    (manager : Option shadowTracerManager) (tr : Option BackendTracer) (w : World) :
    Tracer × World :=
  let w := { w with calls := w.calls ++ [Call.setShadowTracer t.id manager tr] }
  let shadow : Option Tracing.shadowTracer :=
    match manager with
    | some m => some { Tracer := tr, manager := m }
    | none => none
  let w :=
    match t.shadowTracer with
    | some old => old.Close env w
    | none => w
  ({ t with shadowTracer := shadow }, w)

/-- The function `updateShadowTracer`. -/
def updateShadowTracer (env : Lightstep) (t : Tracer) (w : World) : Tracer × World :=
  let lsToken := lightStepToken.Get w
  if lsToken ≠ "" then
    let (tr, w) := createLightStepTracer env lsToken w
    t.setShadowTracer env (some shadowTracerManager.lightStepManager) tr w
  else
    t.setShadowTracer env none none w

/-- Modelled from the spec: `tracerRegistry.ForEach` is defined outside
`shadow.go`; "`forEach(fn)` applies `fn` to every currently-live tracer,
skipping entries whose Tracer has since become defunct".  An entry is a
live tracer or `none`. -/
def tracerRegistry.ForEach (fn : Tracer → World → Tracer × World) :
    List (Option Tracer) → World → List (Option Tracer) × World
  | [], w => ([], w)
  | none :: rest, w =>
    let (rest, w) := tracerRegistry.ForEach fn rest w
    (none :: rest, w)
  | some t :: rest, w =>
    let (t, w) := fn t w
    let (rest, w) := tracerRegistry.ForEach fn rest w
    (some t :: rest, w)

/-- The function `updateShadowTracers`. -/
def updateShadowTracers (env : Lightstep) (registry : List (Option Tracer)) (w : World) :
    List (Option Tracer) × World :=
  tracerRegistry.ForEach (updateShadowTracer env) registry w

/-! ## Sequences of reconfigurations -/

/-- The world together with the registered tracers. -/
structure System where
  world : World
  tracerRegistry : List (Option Tracer)

/-- A reconfiguration event: the token setting takes a new value, or
`updateShadowTracer` runs on one registered tracer, or
`updateShadowTracers` runs. -/
inductive Step where
  | setToken (tok : String)
  | updateShadowTracer (i : Nat)
  | updateShadowTracers

/-- One reconfiguration event: the world is handed to the function that
runs and its result is kept. -/
def System.step (env : Lightstep) (sys : System) : Step → System
  | .setToken tok => { sys with world := { sys.world with lightStepToken := tok } }
  | .updateShadowTracer i =>
    match sys.tracerRegistry[i]? with
    | some (some t) =>
      let (t, w) := Tracing.updateShadowTracer env t sys.world
      { world := w, tracerRegistry := sys.tracerRegistry.set i (some t) }
    | _ => sys
  | .updateShadowTracers =>
    let (reg, w) := Tracing.updateShadowTracers env sys.tracerRegistry sys.world
    { world := w, tracerRegistry := reg }

/-- A sequence of reconfiguration events. -/
def System.run (env : Lightstep) (sys : System) (steps : List Step) : System :=
  steps.foldl (System.step env) sys

/-- The calls of `lightstep.NewTracer` among a list of calls. -/
def newTracerCalls : List Call → List Options
  | [] => []
  | Call.NewTracer o :: rest => o :: newTracerCalls rest
  | _ :: rest => newTracerCalls rest

/-- The calls of `setShadowTracer` among a list of calls. -/
def setShadowTracerCalls :
    List Call → List (Nat × Option shadowTracerManager × Option BackendTracer)
  | [] => []
  | Call.setShadowTracer t m tr :: rest => (t, m, tr) :: setShadowTracerCalls rest
  | _ :: rest => setShadowTracerCalls rest

/-- The calls of `FlushLightStepTracer` and `CloseTracer` among a list of calls. -/
def closeCalls : List Call → List Call
  | [] => []
  | Call.FlushLightStepTracer tr :: rest => Call.FlushLightStepTracer tr :: closeCalls rest
  | Call.CloseTracer tr :: rest => Call.CloseTracer tr :: closeCalls rest
  | _ :: rest => closeCalls rest

/-! ## Concrete inputs -/

/-- A heap with one tag map, `region = east`. -/
def demoHeap : Heap := [TagMap.empty.set "region" "east"]

/-- An unlinked span whose tags are the map at address 0. -/
def demoSpan : span :=
  { operation := "scan", startTime := 1500, mu := { tags := some 0 },
    shadowTr := none, shadowSpan := none }

/-- A shadow tracer over backend tracer 7. -/
def demoShadowTracer : shadowTracer :=
  { Tracer := some { id := 7 }, manager := shadowTracerManager.lightStepManager }

/-- A library whose `NewTracer` returns a fresh tracer on every call (its
identity is the number of calls made before) and whose flush and close
succeed. -/
def demoLightstep : Lightstep :=
  { maxLogsPerSpan := 1000
    newTracer := fun calls _ => some { id := calls.length }
    flush := fun _ _ => none
    close := fun _ _ => none }

/-- A library whose `NewTracer` fails, returning nil, and whose flush and
close return errors. -/
def failingLightstep : Lightstep :=
  { maxLogsPerSpan := 1000
    newTracer := fun _ _ => none
    flush := fun _ _ => some "flush in progress"
    close := fun _ _ => some "not a lightstep tracer" }

/-- A tracer with no active shadow tracer. -/
def demoTracer : Tracer := { id := 0, shadowTracer := none }

/-- A tracer whose active shadow tracer is `demoShadowTracer`. -/
def activeTracer : Tracer := { id := 0, shadowTracer := some demoShadowTracer }

/-- The span `demoSpan` once linked to `demoShadowTracer`. -/
def linkedSpan : span :=
  { demoSpan with
    shadowTr := some demoShadowTracer
    shadowSpan := some (BackendTracer.StartSpan { id := 7 } demoHeap "scan"
      [StartSpanOption.StartTime 1500, StartSpanOption.Tags 0]) }

/-- A world in which the token is `abc`, one span is linked to
`demoShadowTracer`, and no call has been made. -/
def demoWorld : World := { lightStepToken := "abc", spans := [linkedSpan], calls := [] }

/-- A world in which the token is empty, one span is linked to
`demoShadowTracer`, and no call has been made. -/
def emptyWorld : World := { lightStepToken := "", spans := [linkedSpan], calls := [] }

/-- The options `createLightStepTracer` passes for a token. -/
def tokenOptions (env : Lightstep) (token : String) : Options :=
  { AccessToken := token
    MaxLogsPerSpan := env.maxLogsPerSpan
    MaxBufferedSpans := 10000
    UseGRPC := true }

/-- A process with one registered tracer, active on `demoShadowTracer`; the
token is `abc` and one span is linked to that shadow tracer. -/
def demoSystem : System :=
  { world := demoWorld
    tracerRegistry := [some activeTracer] }

/-- The heap `demoHeap` after `region` of the map at address 0 was overwritten. -/
def mutatedHeap : Heap := demoHeap.mutate 0 (TagMutation.set "region" "west")

/-- Two runs of `updateShadowTracer` on the same tracer, one after the
other, nothing else happening in between. -/
def updateShadowTracerTwice (env : Lightstep) (t : Tracer) (w : World) : Tracer × World :=
  updateShadowTracer env (updateShadowTracer env t w).1 (updateShadowTracer env t w).2

/-- The shadow tracer installed by the first construction of `demoLightstep`. -/
def freshShadowTracer : shadowTracer :=
  { Tracer := some { id := 0 }, manager := shadowTracerManager.lightStepManager }

/-! ## Span linking -/

/-- The options `linkShadowSpan` builds: the start time, then the tags if
the span has a tag map, then the reference if there is a parent context. -/
theorem linkShadowSpan_eq (h : Heap) (s : span) (T : shadowTracer) (b : BackendTracer)
    (p : Option SpanContext) (r : SpanReferenceType) (hT : T.Tracer = some b) :
    linkShadowSpan h s (some T) p r =
      some { s with
        shadowTr := some T
        shadowSpan := some (b.StartSpan h s.operation
          ([StartSpanOption.StartTime s.startTime]
            ++ (match s.mu.tags with
                | some m => [StartSpanOption.Tags m]
                | none => [])
            ++ (match p with
                | some ctx => [StartSpanOption.SpanReference ⟨r, ctx⟩]
                | none => []))) } := by
  unfold linkShadowSpan
  simp only [hT]
  cases s.mu.tags <;> cases p <;> simp

/-- A shadow tracer whose embedded tracer is nil makes `linkShadowSpan` panic. -/
theorem linkShadowSpan_nil (h : Heap) (s : span) (T : shadowTracer)
    (p : Option SpanContext) (r : SpanReferenceType) (hT : T.Tracer = none) :
    linkShadowSpan h s (some T) p r = none := by
  unfold linkShadowSpan
  simp only [hT]

theorem references_append (xs ys : List StartSpanOption) :
    references (xs ++ ys) = references xs ++ references ys := by
  induction xs with
  | nil => rfl
  | cons x xs ih => cases x <;> simp [references, ih]

theorem startTimes_append (xs ys : List StartSpanOption) :
    startTimes (xs ++ ys) = startTimes xs ++ startTimes ys := by
  induction xs with
  | nil => rfl
  | cons x xs ih => cases x <;> simp [startTimes, ih]

theorem TagMap.copyInto_empty (t : TagMap) : TagMap.copyInto TagMap.empty t = t := by
  funext x
  unfold TagMap.copyInto TagMap.empty
  cases t x <;> rfl

/-- The tag set the options built by `linkShadowSpan` carry in a heap is the
contents, in that heap, of the tag map of the span. -/
theorem optionTags_link (h : Heap) (s : span) (p : Option SpanContext)
    (r : SpanReferenceType) :
    optionTags h
        ([StartSpanOption.StartTime s.startTime]
          ++ (match s.mu.tags with
              | some m => [StartSpanOption.Tags m]
              | none => [])
          ++ (match p with
              | some ctx => [StartSpanOption.SpanReference ⟨r, ctx⟩]
              | none => []))
      = s.tagSet h := by
  cases hm : s.mu.tags <;> cases p <;>
    simp [optionTags, applyOptions, StartSpanOption.Apply, StartSpanOptions.zero, span.tagSet,
      hm, TagMap.copyInto_empty]

theorem tagOptions_link (s : span) (p : Option SpanContext) (r : SpanReferenceType) :
    tagOptions
        ([StartSpanOption.StartTime s.startTime]
          ++ (match s.mu.tags with
              | some m => [StartSpanOption.Tags m]
              | none => [])
          ++ (match p with
              | some ctx => [StartSpanOption.SpanReference ⟨r, ctx⟩]
              | none => []))
      = s.mu.tags.toList := by
  cases hm : s.mu.tags <;> cases p <;> simp [tagOptions, hm]

/-- C1: with a parent shadow context `p`, the options `linkShadowSpan`
passes to the backend's `StartSpan` hold exactly one causal reference, of
type `r` and to `p`; with a nil parent context they hold none, and `r` does
not influence the result. -/
theorem linkShadowSpan_reference (h : Heap) (s : span) (T : shadowTracer) (b : BackendTracer)
    (r : SpanReferenceType) (hT : T.Tracer = some b) :
    (∀ p : SpanContext, ∃ s1 sp,
        linkShadowSpan h s (some T) (some p) r = some s1 ∧ s1.shadowSpan = some sp ∧
        sp = b.StartSpan h s.operation sp.opts ∧
        references sp.opts = [{ Typ := r, ReferencedContext := p }]) ∧
    (∃ s1 sp,
        linkShadowSpan h s (some T) none r = some s1 ∧ s1.shadowSpan = some sp ∧
        sp = b.StartSpan h s.operation sp.opts ∧
        references sp.opts = [] ∧
        ∀ r2 : SpanReferenceType,
          linkShadowSpan h s (some T) none r2 = linkShadowSpan h s (some T) none r) := by
  refine ⟨fun p => ?_, ?_⟩
  · refine ⟨_, _, linkShadowSpan_eq h s T b (some p) r hT, rfl, rfl, ?_⟩
    cases hm : s.mu.tags <;> simp [BackendTracer.StartSpan, references, hm]
  · refine ⟨_, _, linkShadowSpan_eq h s T b none r hT, rfl, rfl, ?_, ?_⟩
    · cases hm : s.mu.tags <;> simp [BackendTracer.StartSpan, references, hm]
    · intro r2
      rw [linkShadowSpan_eq h s T b none r hT, linkShadowSpan_eq h s T b none r2 hT]

/-- C2: whenever `linkShadowSpan` returns for a shadow tracer `T`,
`s.shadowTr` is `T` and `s.shadowSpan` is the span the backend of `T`
returned from `StartSpan` for `s.operation`, so `shadowSpan` is non-nil
exactly when `shadowTr` is; and it does return when `T` has a backend. -/
theorem linkShadowSpan_links (h : Heap) (s : span) (T : shadowTracer)
    (p : Option SpanContext) (r : SpanReferenceType) :
    (∀ s1 : span, linkShadowSpan h s (some T) p r = some s1 →
      s1.shadowTr = some T ∧
      (∃ b opts, T.Tracer = some b ∧
        s1.shadowSpan = some (b.StartSpan h s.operation opts)) ∧
      s1.shadowSpan ≠ none ∧
      (s1.shadowSpan.isSome ↔ s1.shadowTr.isSome)) ∧
    (∀ b : BackendTracer, T.Tracer = some b →
      ∃ s1 : span, linkShadowSpan h s (some T) p r = some s1) := by
  refine ⟨fun s1 hs1 => ?_, fun b hT => ⟨_, linkShadowSpan_eq h s T b p r hT⟩⟩
  cases hT : T.Tracer with
  | none =>
    rw [linkShadowSpan_nil h s T p r hT] at hs1
    exact absurd hs1 (by simp)
  | some b =>
    rw [linkShadowSpan_eq h s T b p r hT] at hs1
    cases hs1
    exact ⟨rfl, ⟨b, _, rfl, rfl⟩, by simp, by simp⟩

/-- The claim of C3 fails: the start options of the shadow span hold the tag
map of the primary span itself, the map at address 0, and not a copy.  At
link time they carry `region = east`; after `region` is overwritten in
place on the primary span they carry `region = west`. -/
theorem linkShadowSpan_tags_counterexample :
    linkShadowSpan demoHeap demoSpan (some demoShadowTracer) none
      SpanReferenceType.ChildOfRef = some linkedSpan ∧
    linkedSpan.mu.tags = some 0 ∧
    linkedSpan.shadowSpan.map (fun sp => tagOptions sp.opts) = some [0] ∧
    demoSpan.tagSet demoHeap "region" = some "east" ∧
    linkedSpan.shadowSpan.map (fun sp => optionTags demoHeap sp.opts "region")
      = some (some "east") ∧
    linkedSpan.tagSet mutatedHeap "region" = some "west" ∧
    linkedSpan.shadowSpan.map (fun sp => optionTags mutatedHeap sp.opts "region")
      = some (some "west") ∧
    linkedSpan.shadowSpan.map (fun sp => optionTags mutatedHeap sp.opts)
      ≠ some (demoSpan.tagSet demoHeap) := by
  refine ⟨rfl, rfl, rfl, by decide, by decide, by decide, by decide, fun hEq => ?_⟩
  have hAt := congrArg (Option.map fun m : TagMap => m "region") hEq
  revert hAt
  decide

/-- C3, amended: `linkShadowSpan` does not copy the tags.  When `s.mu.tags`
is non-nil the start options hold that map itself, by reference, and
otherwise no tags at all.  At the moment of the call the options carry the
tag set of the span, and a backend that applies its options while
`StartSpan` runs records that set.  The options stay an alias of the map
of the primary span: in any later heap they carry whatever that map then
holds. -/
theorem linkShadowSpan_tags_by_reference (h : Heap) (s : span) (T : shadowTracer)
    (b : BackendTracer) (p : Option SpanContext) (r : SpanReferenceType)
    (hT : T.Tracer = some b) :
    ∃ s1 sp,
      linkShadowSpan h s (some T) p r = some s1 ∧ s1.shadowSpan = some sp ∧
      sp = b.StartSpan h s.operation sp.opts ∧
      tagOptions sp.opts = s.mu.tags.toList ∧
      s1.mu.tags = s.mu.tags ∧
      optionTags h sp.opts = s.tagSet h ∧
      sp.tags = s.tagSet h ∧
      ∀ h2 : Heap, optionTags h2 sp.opts = s1.tagSet h2 := by
  refine ⟨_, _, linkShadowSpan_eq h s T b p r hT, rfl, rfl, ?_, rfl, ?_, ?_, fun h2 => ?_⟩
  · exact tagOptions_link s p r
  · exact optionTags_link h s p r
  · exact optionTags_link h s p r
  · exact optionTags_link h2 s p r

/-- C4: the options `linkShadowSpan` passes to the backend's `StartSpan` hold
exactly one start time, equal to `s.startTime`, whatever the tags and the
parent context are, and `s.startTime` is left as it was. -/
theorem linkShadowSpan_startTime (h : Heap) (s : span) (T : shadowTracer) (b : BackendTracer)
    (p : Option SpanContext) (r : SpanReferenceType) (hT : T.Tracer = some b) :
    ∃ s1 sp,
      linkShadowSpan h s (some T) p r = some s1 ∧ s1.shadowSpan = some sp ∧
      sp = b.StartSpan h s.operation sp.opts ∧
      startTimes sp.opts = [s.startTime] ∧
      sp.recorded.StartTime = s.startTime ∧
      s1.startTime = s.startTime := by
  refine ⟨_, _, linkShadowSpan_eq h s T b p r hT, rfl, rfl, ?_, ?_, rfl⟩
  · cases hm : s.mu.tags <;> cases p <;> simp [BackendTracer.StartSpan, startTimes, hm]
  · cases hm : s.mu.tags <;> cases p <;>
      simp [BackendTracer.StartSpan, applyOptions, StartSpanOption.Apply,
        StartSpanOptions.zero, hm]

theorem linkShadowSpan_reference_witness :
    demoShadowTracer.Tracer = some { id := 7 } ∧
    (∀ p : SpanContext, ∃ s1 sp,
        linkShadowSpan demoHeap demoSpan (some demoShadowTracer) (some p)
          SpanReferenceType.FollowsFromRef = some s1 ∧ s1.shadowSpan = some sp ∧
        sp = BackendTracer.StartSpan { id := 7 } demoHeap demoSpan.operation sp.opts ∧
        references sp.opts
          = [{ Typ := SpanReferenceType.FollowsFromRef, ReferencedContext := p }]) ∧
    (∃ s1 sp,
        linkShadowSpan demoHeap demoSpan (some demoShadowTracer) none
          SpanReferenceType.FollowsFromRef = some s1 ∧ s1.shadowSpan = some sp ∧
        sp = BackendTracer.StartSpan { id := 7 } demoHeap demoSpan.operation sp.opts ∧
        references sp.opts = [] ∧
        ∀ r2 : SpanReferenceType,
          linkShadowSpan demoHeap demoSpan (some demoShadowTracer) none r2
            = linkShadowSpan demoHeap demoSpan (some demoShadowTracer) none
                SpanReferenceType.FollowsFromRef) :=
  ⟨rfl, linkShadowSpan_reference demoHeap demoSpan demoShadowTracer { id := 7 }
    SpanReferenceType.FollowsFromRef rfl⟩

theorem linkShadowSpan_links_witness :
    linkShadowSpan demoHeap demoSpan (some demoShadowTracer) none
      SpanReferenceType.ChildOfRef = some linkedSpan ∧
    demoShadowTracer.Tracer = some { id := 7 } ∧
    linkedSpan.shadowTr = some demoShadowTracer ∧
    linkedSpan.shadowSpan ≠ none ∧
    ∃ s1 : span, linkShadowSpan demoHeap demoSpan (some demoShadowTracer) none
      SpanReferenceType.ChildOfRef = some s1 :=
  ⟨rfl, rfl,
    ((linkShadowSpan_links demoHeap demoSpan demoShadowTracer none
      SpanReferenceType.ChildOfRef).1 linkedSpan rfl).1,
    ((linkShadowSpan_links demoHeap demoSpan demoShadowTracer none
      SpanReferenceType.ChildOfRef).1 linkedSpan rfl).2.2.1,
    (linkShadowSpan_links demoHeap demoSpan demoShadowTracer none
      SpanReferenceType.ChildOfRef).2 { id := 7 } rfl⟩

theorem linkShadowSpan_tags_by_reference_witness :
    demoShadowTracer.Tracer = some { id := 7 } ∧
    ∃ s1 sp,
      linkShadowSpan demoHeap demoSpan (some demoShadowTracer) none
        SpanReferenceType.ChildOfRef = some s1 ∧ s1.shadowSpan = some sp ∧
      sp = BackendTracer.StartSpan { id := 7 } demoHeap demoSpan.operation sp.opts ∧
      tagOptions sp.opts = demoSpan.mu.tags.toList ∧
      s1.mu.tags = demoSpan.mu.tags ∧
      optionTags demoHeap sp.opts = demoSpan.tagSet demoHeap ∧
      sp.tags = demoSpan.tagSet demoHeap ∧
      ∀ h2 : Heap, optionTags h2 sp.opts = s1.tagSet h2 :=
  ⟨rfl, linkShadowSpan_tags_by_reference demoHeap demoSpan demoShadowTracer { id := 7 } none
    SpanReferenceType.ChildOfRef rfl⟩

theorem linkShadowSpan_startTime_witness :
    demoShadowTracer.Tracer = some { id := 7 } ∧
    ∃ s1 sp,
      linkShadowSpan demoHeap demoSpan (some demoShadowTracer) none
        SpanReferenceType.ChildOfRef = some s1 ∧ s1.shadowSpan = some sp ∧
      sp = BackendTracer.StartSpan { id := 7 } demoHeap demoSpan.operation sp.opts ∧
      startTimes sp.opts = [demoSpan.startTime] ∧
      sp.recorded.StartTime = demoSpan.startTime ∧
      s1.startTime = demoSpan.startTime :=
  ⟨rfl, linkShadowSpan_startTime demoHeap demoSpan demoShadowTracer { id := 7 } none
    SpanReferenceType.ChildOfRef rfl⟩

/-! ## Managers -/

theorem lightStepManager.Close_manager_calls (env : Lightstep) (tr : OTTracer) (w : World) :
    (lightStepManager.Close env tr w).calls
      = w.calls ++ [Call.FlushLightStepTracer tr, Call.CloseTracer tr] := by
  simp [lightStepManager.Close, lightstep.FlushLightStepTracer, lightstep.CloseTracer]

theorem lightStepManager.Close_manager_token (env : Lightstep) (tr : OTTracer) (w : World) :
    (lightStepManager.Close env tr w).lightStepToken = w.lightStepToken := rfl

theorem shadowTracer.Close_calls (env : Lightstep) (st : shadowTracer) (w : World) :
    (st.Close env w).calls
      = w.calls ++ [Call.FlushLightStepTracer (OTTracer.shadow st),
          Call.CloseTracer (OTTracer.shadow st)] := by
  unfold shadowTracer.Close
  cases st.manager
  exact lightStepManager.Close_manager_calls env _ w

theorem shadowTracer.Close_token (env : Lightstep) (st : shadowTracer) (w : World) :
    (st.Close env w).lightStepToken = w.lightStepToken := by
  unfold shadowTracer.Close
  cases st.manager
  rfl

/-- The calls made to close the previously active shadow tracer, if any. -/
theorem Tracer.setShadowTracer_calls (env : Lightstep) (t : Tracer)
    (manager : Option shadowTracerManager) (tr : Option BackendTracer) (w : World) :
    (t.setShadowTracer env manager tr w).2.calls
      = w.calls ++ [Call.setShadowTracer t.id manager tr]
        ++ (match t.shadowTracer with
            | some old => [Call.FlushLightStepTracer (OTTracer.shadow old),
                Call.CloseTracer (OTTracer.shadow old)]
            | none => []) := by
  unfold Tracer.setShadowTracer
  cases t.shadowTracer with
  | none => simp
  | some old => simp [shadowTracer.Close_calls]

theorem Tracer.setShadowTracer_token (env : Lightstep) (t : Tracer)
    (manager : Option shadowTracerManager) (tr : Option BackendTracer) (w : World) :
    (t.setShadowTracer env manager tr w).2.lightStepToken = w.lightStepToken := by
  unfold Tracer.setShadowTracer
  cases t.shadowTracer with
  | none => rfl
  | some old => simp [shadowTracer.Close_token]

theorem Tracer.setShadowTracer_fst (env : Lightstep) (t : Tracer)
    (manager : Option shadowTracerManager) (tr : Option BackendTracer) (w : World) :
    (t.setShadowTracer env manager tr w).1
      = { id := t.id
          shadowTracer := manager.map fun m => { Tracer := tr, manager := m } } := by
  unfold Tracer.setShadowTracer
  cases manager <;> rfl

theorem updateShadowTracer_nonempty (env : Lightstep) (t : Tracer) (w : World)
    (htok : w.lightStepToken ≠ "") :
    updateShadowTracer env t w
      = t.setShadowTracer env (some shadowTracerManager.lightStepManager)
          (env.newTracer w.calls (tokenOptions env w.lightStepToken))
          { w with calls := w.calls ++ [Call.NewTracer (tokenOptions env w.lightStepToken)] } := by
  unfold updateShadowTracer lightStepToken.Get
  rw [if_pos htok]
  rfl

theorem updateShadowTracer_empty (env : Lightstep) (t : Tracer) (w : World)
    (htok : w.lightStepToken = "") :
    updateShadowTracer env t w = t.setShadowTracer env none none w := by
  unfold updateShadowTracer lightStepToken.Get
  rw [if_neg (by simpa using htok)]

theorem updateShadowTracer_token (env : Lightstep) (t : Tracer) (w : World) :
    (updateShadowTracer env t w).2.lightStepToken = w.lightStepToken := by
  by_cases htok : w.lightStepToken = ""
  · rw [updateShadowTracer_empty env t w htok, Tracer.setShadowTracer_token]
  · rw [updateShadowTracer_nonempty env t w htok, Tracer.setShadowTracer_token]

theorem updateShadowTracer_id (env : Lightstep) (t : Tracer) (w : World) :
    (updateShadowTracer env t w).1.id = t.id := by
  by_cases htok : w.lightStepToken = ""
  · rw [updateShadowTracer_empty env t w htok, Tracer.setShadowTracer_fst]
  · rw [updateShadowTracer_nonempty env t w htok, Tracer.setShadowTracer_fst]

theorem newTracerCalls_append (xs ys : List Call) :
    newTracerCalls (xs ++ ys) = newTracerCalls xs ++ newTracerCalls ys := by
  induction xs with
  | nil => rfl
  | cons x xs ih => cases x <;> simp [newTracerCalls, ih]

theorem setShadowTracerCalls_append (xs ys : List Call) :
    setShadowTracerCalls (xs ++ ys) = setShadowTracerCalls xs ++ setShadowTracerCalls ys := by
  induction xs with
  | nil => rfl
  | cons x xs ih => cases x <;> simp [setShadowTracerCalls, ih]

theorem closeCalls_append (xs ys : List Call) :
    closeCalls (xs ++ ys) = closeCalls xs ++ closeCalls ys := by
  induction xs with
  | nil => rfl
  | cons x xs ih => cases x <;> simp [closeCalls, ih]

/-- What one run of `updateShadowTracer` adds to the calls, with a non-empty
token. -/
theorem updateShadowTracer_calls_nonempty (env : Lightstep) (t : Tracer) (w : World)
    (htok : w.lightStepToken ≠ "") :
    (updateShadowTracer env t w).2.calls
      = w.calls ++ [Call.NewTracer (tokenOptions env w.lightStepToken),
          Call.setShadowTracer t.id (some shadowTracerManager.lightStepManager)
            (env.newTracer w.calls (tokenOptions env w.lightStepToken))]
        ++ (match t.shadowTracer with
            | some old => [Call.FlushLightStepTracer (OTTracer.shadow old),
                Call.CloseTracer (OTTracer.shadow old)]
            | none => []) := by
  rw [updateShadowTracer_nonempty env t w htok, Tracer.setShadowTracer_calls]
  simp

/-- What one run of `updateShadowTracer` adds to the calls, with the empty
token. -/
theorem updateShadowTracer_calls_empty (env : Lightstep) (t : Tracer) (w : World)
    (htok : w.lightStepToken = "") :
    (updateShadowTracer env t w).2.calls
      = w.calls ++ [Call.setShadowTracer t.id none none]
        ++ (match t.shadowTracer with
            | some old => [Call.FlushLightStepTracer (OTTracer.shadow old),
                Call.CloseTracer (OTTracer.shadow old)]
            | none => []) := by
  rw [updateShadowTracer_empty env t w htok, Tracer.setShadowTracer_calls]

theorem newTracerCalls_closing (old : Option shadowTracer) :
    newTracerCalls (match old with
      | some old => [Call.FlushLightStepTracer (OTTracer.shadow old),
          Call.CloseTracer (OTTracer.shadow old)]
      | none => []) = [] := by
  cases old <;> rfl

theorem setShadowTracerCalls_closing (old : Option shadowTracer) :
    setShadowTracerCalls (match old with
      | some old => [Call.FlushLightStepTracer (OTTracer.shadow old),
          Call.CloseTracer (OTTracer.shadow old)]
      | none => []) = [] := by
  cases old <;> rfl

/-- C5: one run of `updateShadowTracer` makes exactly one `setShadowTracer`
call on `t`.  With a non-empty token it is the call with the lightstep
manager and the tracer `lightstep.NewTracer` returned for options whose
access token is the token, that tracer being constructed once; with the
empty token it is `setShadowTracer(nil, nil)` and nothing is constructed. -/
theorem updateShadowTracer_one_call (env : Lightstep) (t : Tracer) (w : World) :
    (w.lightStepToken ≠ "" →
      updateShadowTracer env t w
        = t.setShadowTracer env (some shadowTracerManager.lightStepManager)
            (createLightStepTracer env w.lightStepToken w).1
            (createLightStepTracer env w.lightStepToken w).2 ∧
      (tokenOptions env w.lightStepToken).AccessToken = w.lightStepToken ∧
      newTracerCalls (updateShadowTracer env t w).2.calls
        = newTracerCalls w.calls ++ [tokenOptions env w.lightStepToken] ∧
      setShadowTracerCalls (updateShadowTracer env t w).2.calls
        = setShadowTracerCalls w.calls
          ++ [(t.id, some shadowTracerManager.lightStepManager,
                env.newTracer w.calls (tokenOptions env w.lightStepToken))]) ∧
    (w.lightStepToken = "" →
      updateShadowTracer env t w = t.setShadowTracer env none none w ∧
      newTracerCalls (updateShadowTracer env t w).2.calls = newTracerCalls w.calls ∧
      setShadowTracerCalls (updateShadowTracer env t w).2.calls
        = setShadowTracerCalls w.calls ++ [(t.id, none, none)]) := by
  constructor
  · intro htok
    refine ⟨updateShadowTracer_nonempty env t w htok, rfl, ?_, ?_⟩
    · rw [updateShadowTracer_calls_nonempty env t w htok, newTracerCalls_append,
        newTracerCalls_append, newTracerCalls_closing]
      simp [newTracerCalls]
    · rw [updateShadowTracer_calls_nonempty env t w htok, setShadowTracerCalls_append,
        setShadowTracerCalls_append, setShadowTracerCalls_closing]
      simp [setShadowTracerCalls]
  · intro htok
    refine ⟨updateShadowTracer_empty env t w htok, ?_, ?_⟩
    · rw [updateShadowTracer_calls_empty env t w htok, newTracerCalls_append,
        newTracerCalls_append, newTracerCalls_closing]
      simp [newTracerCalls]
    · rw [updateShadowTracer_calls_empty env t w htok, setShadowTracerCalls_append,
        setShadowTracerCalls_append, setShadowTracerCalls_closing]
      simp [setShadowTracerCalls]

theorem updateShadowTracer_one_call_witness :
    (demoWorld.lightStepToken ≠ "" ∧
      newTracerCalls (updateShadowTracer demoLightstep activeTracer demoWorld).2.calls
        = [tokenOptions demoLightstep "abc"] ∧
      setShadowTracerCalls (updateShadowTracer demoLightstep activeTracer demoWorld).2.calls
        = [(0, some shadowTracerManager.lightStepManager, some { id := 0 })]) ∧
    (emptyWorld.lightStepToken = "" ∧
      newTracerCalls (updateShadowTracer demoLightstep activeTracer emptyWorld).2.calls = [] ∧
      setShadowTracerCalls (updateShadowTracer demoLightstep activeTracer emptyWorld).2.calls
        = [(0, none, none)]) :=
  ⟨⟨by decide,
      ((updateShadowTracer_one_call demoLightstep activeTracer demoWorld).1 (by decide)).2.2⟩,
    ⟨rfl, ((updateShadowTracer_one_call demoLightstep activeTracer emptyWorld).2 rfl).2⟩⟩

theorem closeCalls_closing (old : Option shadowTracer) :
    closeCalls (match old with
      | some old => [Call.FlushLightStepTracer (OTTracer.shadow old),
          Call.CloseTracer (OTTracer.shadow old)]
      | none => [])
    = (match old with
      | some old => [Call.FlushLightStepTracer (OTTracer.shadow old),
          Call.CloseTracer (OTTracer.shadow old)]
      | none => []) := by
  cases old <;> rfl

theorem updateShadowTracer_fst_nonempty (env : Lightstep) (t : Tracer) (w : World)
    (htok : w.lightStepToken ≠ "") :
    (updateShadowTracer env t w).1
      = { id := t.id
          shadowTracer := some
            { Tracer := env.newTracer w.calls (tokenOptions env w.lightStepToken)
              manager := shadowTracerManager.lightStepManager } } := by
  rw [updateShadowTracer_nonempty env t w htok, Tracer.setShadowTracer_fst]
  rfl

theorem updateShadowTracer_fst_empty (env : Lightstep) (t : Tracer) (w : World)
    (htok : w.lightStepToken = "") :
    (updateShadowTracer env t w).1 = { id := t.id, shadowTracer := none } := by
  rw [updateShadowTracer_empty env t w htok, Tracer.setShadowTracer_fst]
  rfl

/-- The claim of C6 fails: with the token `abc` unchanged, the second run
constructs a second backend tracer, installs a new shadow tracer and closes
the one the first run installed, so the state after two runs is not the
state after one. -/
theorem updateShadowTracer_renotify_counterexample :
    (updateShadowTracer demoLightstep demoTracer demoWorld).2.lightStepToken
      = demoWorld.lightStepToken ∧
    updateShadowTracerTwice demoLightstep demoTracer demoWorld
      ≠ updateShadowTracer demoLightstep demoTracer demoWorld ∧
    newTracerCalls (updateShadowTracer demoLightstep demoTracer demoWorld).2.calls
      = [tokenOptions demoLightstep "abc"] ∧
    newTracerCalls (updateShadowTracerTwice demoLightstep demoTracer demoWorld).2.calls
      = [tokenOptions demoLightstep "abc", tokenOptions demoLightstep "abc"] ∧
    (updateShadowTracer demoLightstep demoTracer demoWorld).1.shadowTracer
      = some { Tracer := some { id := 0 }, manager := shadowTracerManager.lightStepManager } ∧
    (updateShadowTracerTwice demoLightstep demoTracer demoWorld).1.shadowTracer
      = some { Tracer := some { id := 2 }, manager := shadowTracerManager.lightStepManager } ∧
    closeCalls (updateShadowTracer demoLightstep demoTracer demoWorld).2.calls = [] ∧
    closeCalls (updateShadowTracerTwice demoLightstep demoTracer demoWorld).2.calls
      = [Call.FlushLightStepTracer (OTTracer.shadow
            { Tracer := some { id := 0 }, manager := shadowTracerManager.lightStepManager }),
         Call.CloseTracer (OTTracer.shadow
            { Tracer := some { id := 0 }, manager := shadowTracerManager.lightStepManager })] := by
  refine ⟨rfl, fun hEq => ?_, by decide, by decide, by decide, by decide, by decide, by decide⟩
  have hSlot := congrArg (fun x : Tracer × World => x.1.shadowTracer) hEq
  revert hSlot
  decide

/-- C6, amended: a second run of `updateShadowTracer` with the token
unchanged is a full run.  With a non-empty token it constructs one more
backend tracer with that token, makes one more `setShadowTracer` call,
which installs a shadow tracer around the new backend tracer and closes the
one the first run installed.  With the empty token it constructs nothing,
makes one more `setShadowTracer(nil, nil)` call, closes nothing and leaves
the tracer as the first run left it. -/
theorem updateShadowTracer_renotify (env : Lightstep) (t : Tracer) (w : World) :
    (updateShadowTracer env t w).2.lightStepToken = w.lightStepToken ∧
    (w.lightStepToken ≠ "" →
      newTracerCalls (updateShadowTracerTwice env t w).2.calls
        = newTracerCalls (updateShadowTracer env t w).2.calls
          ++ [tokenOptions env w.lightStepToken] ∧
      setShadowTracerCalls (updateShadowTracerTwice env t w).2.calls
        = setShadowTracerCalls (updateShadowTracer env t w).2.calls
          ++ [(t.id, some shadowTracerManager.lightStepManager,
                env.newTracer (updateShadowTracer env t w).2.calls
                  (tokenOptions env w.lightStepToken))] ∧
      (updateShadowTracerTwice env t w).1.shadowTracer
        = some { Tracer := env.newTracer (updateShadowTracer env t w).2.calls
                   (tokenOptions env w.lightStepToken)
                 manager := shadowTracerManager.lightStepManager } ∧
      closeCalls (updateShadowTracerTwice env t w).2.calls
        = closeCalls (updateShadowTracer env t w).2.calls
          ++ [Call.FlushLightStepTracer (OTTracer.shadow
                { Tracer := env.newTracer w.calls (tokenOptions env w.lightStepToken)
                  manager := shadowTracerManager.lightStepManager }),
              Call.CloseTracer (OTTracer.shadow
                { Tracer := env.newTracer w.calls (tokenOptions env w.lightStepToken)
                  manager := shadowTracerManager.lightStepManager })]) ∧
    (w.lightStepToken = "" →
      newTracerCalls (updateShadowTracerTwice env t w).2.calls = newTracerCalls w.calls ∧
      setShadowTracerCalls (updateShadowTracerTwice env t w).2.calls
        = setShadowTracerCalls (updateShadowTracer env t w).2.calls ++ [(t.id, none, none)] ∧
      closeCalls (updateShadowTracerTwice env t w).2.calls
        = closeCalls (updateShadowTracer env t w).2.calls ∧
      (updateShadowTracerTwice env t w).1 = (updateShadowTracer env t w).1) := by
  refine ⟨updateShadowTracer_token env t w, fun htok => ?_, fun htok => ?_⟩
  · have htok1 : (updateShadowTracer env t w).2.lightStepToken ≠ "" := by
      rw [updateShadowTracer_token]; exact htok
    have hcalls := updateShadowTracer_calls_nonempty env (updateShadowTracer env t w).1
      (updateShadowTracer env t w).2 htok1
    have hfst := updateShadowTracer_fst_nonempty env (updateShadowTracer env t w).1
      (updateShadowTracer env t w).2 htok1
    rw [updateShadowTracer_token, updateShadowTracer_id] at hcalls hfst
    rw [updateShadowTracer_fst_nonempty env t w htok] at hcalls hfst
    unfold updateShadowTracerTwice
    rw [updateShadowTracer_fst_nonempty env t w htok]
    refine ⟨?_, ?_, ?_, ?_⟩
    · rw [hcalls]
      simp [newTracerCalls_append, newTracerCalls]
    · rw [hcalls]
      simp [setShadowTracerCalls_append, setShadowTracerCalls]
    · rw [hfst]
    · rw [hcalls]
      simp [closeCalls_append, closeCalls]
  · have htok1 : (updateShadowTracer env t w).2.lightStepToken = "" := by
      rw [updateShadowTracer_token]; exact htok
    have hcalls := updateShadowTracer_calls_empty env (updateShadowTracer env t w).1
      (updateShadowTracer env t w).2 htok1
    have hfst := updateShadowTracer_fst_empty env (updateShadowTracer env t w).1
      (updateShadowTracer env t w).2 htok1
    rw [updateShadowTracer_id] at hcalls hfst
    rw [updateShadowTracer_fst_empty env t w htok] at hcalls hfst
    unfold updateShadowTracerTwice
    rw [updateShadowTracer_fst_empty env t w htok]
    refine ⟨?_, ?_, ?_, ?_⟩
    · rw [hcalls, updateShadowTracer_calls_empty env t w htok]
      simp [newTracerCalls_append, newTracerCalls, newTracerCalls_closing]
    · rw [hcalls]
      simp [setShadowTracerCalls_append, setShadowTracerCalls]
    · rw [hcalls]
      simp [closeCalls_append, closeCalls]
    · rw [hfst]

theorem updateShadowTracer_renotify_witness :
    demoWorld.lightStepToken ≠ "" ∧
    emptyWorld.lightStepToken = "" ∧
    newTracerCalls (updateShadowTracerTwice demoLightstep activeTracer demoWorld).2.calls
      = newTracerCalls (updateShadowTracer demoLightstep activeTracer demoWorld).2.calls
        ++ [tokenOptions demoLightstep "abc"] ∧
    (updateShadowTracerTwice demoLightstep activeTracer emptyWorld).1
      = (updateShadowTracer demoLightstep activeTracer emptyWorld).1 :=
  ⟨by decide, rfl,
    ((updateShadowTracer_renotify demoLightstep activeTracer demoWorld).2.1 (by decide)).1,
    ((updateShadowTracer_renotify demoLightstep activeTracer emptyWorld).2.2 rfl).2.2.2⟩

/-- C8: `st.Typ()` is `st.manager.Name()`; `Name()` of the lightstep manager is
the string `lightstep`, whatever backend the shadow tracer wraps; and the
shadow tracer that `updateShadowTracer` leaves installed, which exists
when the token is non-empty, reports `Typ() = "lightstep"`. -/
theorem shadowTracer_Typ_lightstep (env : Lightstep) (t : Tracer) (w : World) :
    (∀ st : shadowTracer, st.Typ = st.manager.Name) ∧
    lightStepManager.Name = "lightstep" ∧
    (∀ tr : Option BackendTracer,
      shadowTracer.Typ { Tracer := tr, manager := shadowTracerManager.lightStepManager }
        = "lightstep") ∧
    (∀ st : shadowTracer, (updateShadowTracer env t w).1.shadowTracer = some st →
      st.Typ = "lightstep") ∧
    (w.lightStepToken ≠ "" →
      ∃ st : shadowTracer, (updateShadowTracer env t w).1.shadowTracer = some st ∧
        st.Typ = "lightstep") := by
  refine ⟨fun _ => rfl, rfl, fun _ => rfl, fun st _ => ?_, fun htok => ?_⟩
  · unfold shadowTracer.Typ
    cases st.manager
    rfl
  · rw [updateShadowTracer_fst_nonempty env t w htok]
    exact ⟨_, rfl, rfl⟩

theorem shadowTracer_Typ_lightstep_witness :
    demoWorld.lightStepToken ≠ "" ∧
    ∃ st : shadowTracer,
      (updateShadowTracer demoLightstep activeTracer demoWorld).1.shadowTracer = some st ∧
        st.Typ = "lightstep" :=
  ⟨by decide,
    (shadowTracer_Typ_lightstep demoLightstep activeTracer demoWorld).2.2.2.2 (by decide)⟩

/-- C9: `st.Close()` is one call of `st.manager.Close` with `st` itself; and
whatever the library answers to flush and close, `lightStepManager.Close(tr)`
calls `FlushLightStepTracer(tr)` once, then `CloseTracer(tr)` once, also
when the flush returned an error, and its result carries no error and does
not depend on those answers. -/
theorem Close_swallows_errors (env : Lightstep) (w : World) :
    (∀ st : shadowTracer,
      st.Close env w = st.manager.Close env (OTTracer.shadow st) w ∧
      (st.Close env w).calls
        = w.calls ++ [Call.FlushLightStepTracer (OTTracer.shadow st),
            Call.CloseTracer (OTTracer.shadow st)]) ∧
    (∀ tr : OTTracer,
      (lightStepManager.Close env tr w).calls
        = w.calls ++ [Call.FlushLightStepTracer tr, Call.CloseTracer tr] ∧
      closeCalls (lightStepManager.Close env tr w).calls
        = closeCalls w.calls ++ [Call.FlushLightStepTracer tr, Call.CloseTracer tr] ∧
      (lightStepManager.Close env tr w).lightStepToken = w.lightStepToken ∧
      ((lightstep.FlushLightStepTracer env tr w).1 ≠ none →
        Call.CloseTracer tr ∈ (lightStepManager.Close env tr w).calls) ∧
      ∀ env2 : Lightstep, lightStepManager.Close env2 tr w = lightStepManager.Close env tr w) := by
  refine ⟨fun st => ⟨rfl, shadowTracer.Close_calls env st w⟩,
    fun tr => ⟨lightStepManager.Close_manager_calls env tr w, ?_, rfl, ?_, ?_⟩⟩
  · rw [lightStepManager.Close_manager_calls, closeCalls_append]
    rfl
  · intro _
    rw [lightStepManager.Close_manager_calls]
    simp
  · intro env2
    rfl

theorem Close_swallows_errors_witness :
    (lightstep.FlushLightStepTracer failingLightstep (OTTracer.shadow demoShadowTracer)
        demoWorld).1 ≠ none ∧
    Call.CloseTracer (OTTracer.shadow demoShadowTracer)
      ∈ (lightStepManager.Close failingLightstep (OTTracer.shadow demoShadowTracer)
          demoWorld).calls :=
  ⟨by decide,
    ((Close_swallows_errors failingLightstep demoWorld).2
      (OTTracer.shadow demoShadowTracer)).2.2.2.1 (by decide)⟩

/-! ## Reconfiguration and linked spans -/

theorem shadowTracer.Close_spans (env : Lightstep) (st : shadowTracer) (w : World) :
    (st.Close env w).spans = w.spans := by
  unfold shadowTracer.Close
  cases st.manager
  rfl

theorem Tracer.setShadowTracer_spans (env : Lightstep) (t : Tracer)
    (manager : Option shadowTracerManager) (tr : Option BackendTracer) (w : World) :
    (t.setShadowTracer env manager tr w).2.spans = w.spans := by
  unfold Tracer.setShadowTracer
  cases t.shadowTracer with
  | none => rfl
  | some old => simp [shadowTracer.Close_spans]

theorem updateShadowTracer_spans (env : Lightstep) (t : Tracer) (w : World) :
    (updateShadowTracer env t w).2.spans = w.spans := by
  by_cases htok : w.lightStepToken = ""
  · rw [updateShadowTracer_empty env t w htok, Tracer.setShadowTracer_spans]
  · rw [updateShadowTracer_nonempty env t w htok, Tracer.setShadowTracer_spans]

theorem tracerRegistry.ForEach_spans (fn : Tracer → World → Tracer × World)
    (hfn : ∀ t w, (fn t w).2.spans = w.spans) (reg : List (Option Tracer)) (w : World) :
    (tracerRegistry.ForEach fn reg w).2.spans = w.spans := by
  induction reg generalizing w with
  | nil => rfl
  | cons e rest ih =>
    cases e with
    | none => simpa [tracerRegistry.ForEach] using ih w
    | some t =>
      simp only [tracerRegistry.ForEach]
      rw [ih, hfn]

theorem updateShadowTracers_spans (env : Lightstep) (reg : List (Option Tracer)) (w : World) :
    (updateShadowTracers env reg w).2.spans = w.spans :=
  tracerRegistry.ForEach_spans _ (updateShadowTracer_spans env) reg w

theorem System.step_spans (env : Lightstep) (sys : System) (st : Step) :
    (sys.step env st).world.spans = sys.world.spans := by
  cases st with
  | setToken tok => rfl
  | updateShadowTracer i =>
    rcases hget : sys.tracerRegistry[i]? with _ | _ | t <;>
      simp [System.step, hget, updateShadowTracer_spans]
  | updateShadowTracers =>
    simp [System.step, updateShadowTracers_spans]

theorem System.run_spans (env : Lightstep) (steps : List Step) (sys : System) :
    (sys.run env steps).world.spans = sys.world.spans := by
  induction steps generalizing sys with
  | nil => rfl
  | cons st steps ih =>
    unfold System.run
    rw [List.foldl_cons]
    exact (ih (sys.step env st)).trans (System.step_spans env sys st)

/-- C10: `updateShadowTracer` and `updateShadowTracers` hand back the spans of
the process as they found them, so after any sequence of token changes and
runs of the two, a span linked to `T1` still has `shadowTr = T1` and the
shadow span it was given at link time.  After a run with a non-empty token
the slot of the tracer holds a shadow tracer around the backend tracer
that run constructed; a span linked to what the slot then holds has that
shadow tracer as `shadowTr` and a shadow span started on that backend, so
on the backend of `T1` only if the library returned that very tracer. -/
theorem reconfiguration_keeps_linked_spans (env : Lightstep) (sys : System)
    (steps : List Step) :
    (∀ (t : Tracer) (w : World), (updateShadowTracer env t w).2.spans = w.spans) ∧
    (∀ (reg : List (Option Tracer)) (w : World),
      (updateShadowTracers env reg w).2.spans = w.spans) ∧
    (∀ (i : Nat) (h : Heap) (s0 s : span) (T1 : shadowTracer) (p : Option SpanContext)
        (r : SpanReferenceType),
      linkShadowSpan h s0 (some T1) p r = some s → sys.world.spans[i]? = some s →
      (sys.run env steps).world.spans[i]? = some s ∧ s.shadowTr = some T1) ∧
    (∀ (t : Tracer) (w : World) (b2 : BackendTracer),
      w.lightStepToken ≠ "" →
      env.newTracer w.calls (tokenOptions env w.lightStepToken) = some b2 →
      (updateShadowTracer env t w).1.shadowTracer
        = some { Tracer := some b2, manager := shadowTracerManager.lightStepManager } ∧
      ∀ (h : Heap) (s : span) (p : Option SpanContext) (r : SpanReferenceType),
        ∃ s1 sp,
          linkShadowSpan h s (updateShadowTracer env t w).1.shadowTracer p r = some s1 ∧
          s1.shadowTr = (updateShadowTracer env t w).1.shadowTracer ∧
          s1.shadowSpan = some sp ∧ sp.tracer = b2 ∧
          ∀ (T1 : shadowTracer) (b1 : BackendTracer),
            t.shadowTracer = some T1 → T1.Tracer = some b1 → sp.tracer = b1 → b1 = b2) := by
  refine ⟨updateShadowTracer_spans env, updateShadowTracers_spans env, ?_, ?_⟩
  · intro i h s0 s T1 p r hlink hs
    refine ⟨by rw [System.run_spans env steps sys]; exact hs, ?_⟩
    have hlinks : ∀ hb : Option BackendTracer, T1.Tracer = hb → s.shadowTr = some T1 := by
      intro hb hT
      cases hb with
      | none =>
        rw [linkShadowSpan_nil h s0 T1 p r hT] at hlink
        exact absurd hlink (by simp)
      | some b =>
        rw [linkShadowSpan_eq h s0 T1 b p r hT] at hlink
        cases hlink
        rfl
    exact hlinks _ rfl
  · intro t w b2 htok hnew
    have hslot : (updateShadowTracer env t w).1.shadowTracer
        = some { Tracer := some b2, manager := shadowTracerManager.lightStepManager } := by
      rw [updateShadowTracer_fst_nonempty env t w htok, hnew]
    refine ⟨hslot, fun h s p r => ?_⟩
    rw [hslot]
    exact ⟨_, _, linkShadowSpan_eq h s _ b2 p r rfl, rfl, rfl, rfl,
      fun _ _ _ _ hsp => hsp.symm⟩

theorem reconfiguration_keeps_linked_spans_witness :
    linkShadowSpan demoHeap demoSpan (some demoShadowTracer) none
      SpanReferenceType.ChildOfRef = some linkedSpan ∧
    demoSystem.world.spans[0]? = some linkedSpan ∧
    (demoSystem.run demoLightstep
        [Step.setToken "xyz", Step.updateShadowTracers]).tracerRegistry[0]?
      = some (some { id := 0, shadowTracer := some freshShadowTracer }) ∧
    ((demoSystem.run demoLightstep
        [Step.setToken "xyz", Step.updateShadowTracers, Step.setToken "",
          Step.updateShadowTracer 0]).world.spans[0]? = some linkedSpan ∧
      linkedSpan.shadowTr = some demoShadowTracer) ∧
    demoWorld.lightStepToken ≠ "" ∧
    demoLightstep.newTracer demoWorld.calls (tokenOptions demoLightstep demoWorld.lightStepToken)
      = some { id := 0 } ∧
    (updateShadowTracer demoLightstep activeTracer demoWorld).1.shadowTracer
      = some freshShadowTracer :=
  ⟨rfl, rfl, by decide,
    (reconfiguration_keeps_linked_spans demoLightstep demoSystem
      [Step.setToken "xyz", Step.updateShadowTracers, Step.setToken "",
        Step.updateShadowTracer 0]).2.2.1 0 demoHeap demoSpan linkedSpan demoShadowTracer none
      SpanReferenceType.ChildOfRef rfl rfl,
    by decide, rfl,
    ((reconfiguration_keeps_linked_spans demoLightstep demoSystem []).2.2.2
      activeTracer demoWorld { id := 0 } (by decide) rfl).1⟩

end Tracing
